import Mathlib

/-!
Verification of the Constitutional SDK core utilities (Python sources under
`packages/sdk-python/constitutional/`): the pagination helpers
(`utils/pagination.py`), the webhook signature verifier
(`resources/webhooks.py`) and the HTTP transport retry loop
(`utils/request.py`).  Each Python function is shallowly embedded as an
executable Lean function; external effects (the successive results of the
HTTP client, the wall clock) are passed in explicitly.
-/

namespace ConstitutionalSDK

/-! ## Pagination (`constitutional/utils/pagination.py`) -/

/-- Pagination metadata (`Pagination` in `constitutional/types/common.py`);
the optional `total` field is never read by the code under study and is
omitted. -/
structure Pagination where
  cursor : Option String
  has_more : Bool
  deriving Repr, DecidableEq

/-- One page of a paginated response (`PaginatedResponse` in
`constitutional/types/common.py`). -/
structure Page (α : Type) where
  data : List α
  pagination : Pagination
  deriving Repr, DecidableEq

variable {α : Type}

/-- The items yielded by `paginate` (`utils/pagination.py` lines 24-34) when
the successive `fetch_page` calls return the elements of `pages` in order:
the loop yields a page's items, then continues to the next fetch only while
`has_more` is true.  (If the script `pages` runs out while `has_more` is
still true the model stops; the theorems below only use scripts that end
with `has_more = false`, where the Python loop terminates by itself.) -/
def paginateItems : List (Page α) → List α
  | [] => []
  | p :: ps => p.data ++ (if p.pagination.has_more then paginateItems ps else [])

/-- The cursor arguments passed to the successive `fetch_page` calls made by
`paginate`, starting from `cursor` (`None` at the top of the function): each
later call receives the previous page's cursor.  Its length is the number of
fetch calls performed. -/
def paginateCursors (cursor : Option String) : List (Page α) → List (Option String)
  | [] => []
  | p :: ps =>
      cursor ::
        (if p.pagination.has_more then paginateCursors p.pagination.cursor ps else [])

/-- Python truthiness test on the `max_items : Optional[int]` argument of
`collect_all`: `None` and `0` are falsy. -/
def maxItemsTruthy : Option Nat → Bool
  | none => false
  | some 0 => false
  | some (_ + 1) => true

/-- The `if max_items and len(items) >= max_items: break` test of
`collect_all` (line 57), applied to the current item count `n`. -/
def boundReached : Option Nat → Nat → Bool
  | none, _ => false
  | some 0, _ => false
  | some (m + 1), n => decide (m + 1 ≤ n)

/-- The `for item in response.data` part of the `collect_all` loop, as seen
through the `paginate` generator: items of the current page are appended to
`acc` one at a time, and the `break` fires as soon as the bound is reached.
Returns the grown accumulator and whether the `break` fired. -/
def consumePage (max_items : Option Nat) : List α → List α → List α × Bool
  | acc, [] => (acc, false)
  | acc, x :: xs =>
      let acc2 := acc ++ [x]
      if boundReached max_items acc2.length then (acc2, true)
      else consumePage max_items acc2 xs

/-- The `collect_all` loop (`utils/pagination.py` lines 53-60) driving the
`paginate` generator over the page script `pages`: per fetched page, items
are appended (with the early `break`); the generator is resumed for another
fetch only when the `break` did not fire and the page had `has_more = true`.
Returns the collected items and the number of `fetch_page` calls made. -/
def collectLoop (max_items : Option Nat) : List α → List (Page α) → List α × Nat
  | acc, [] => (acc, 0)
  | acc, p :: ps =>
      match consumePage max_items acc p.data with
      | (acc2, true) => (acc2, 1)
      | (acc2, false) =>
          if p.pagination.has_more then
            let r := collectLoop max_items acc2 ps
            (r.1, r.2 + 1)
          else (acc2, 1)

/-- `collect_all` (`utils/pagination.py`): collect the paginated stream into
a list, stopping once `max_items` (when truthy) items have been gathered.
Returns the list together with the number of `fetch_page` calls made. -/
def collect_all (max_items : Option Nat) (pages : List (Page α)) : List α × Nat :=
  collectLoop max_items [] pages

/-! ## Webhook signature verification (`constitutional/resources/webhooks.py`) -/

/-- Python `s.split(sep)` for a one-character separator, on the character
list of `s`: e.g. splitting the empty string gives `[[]]`, matching
Python's `[""]`. -/
def splitChars (sep : Char) : List Char → List (List Char)
  | [] => [[]]
  | c :: cs =>
      if c = sep then [] :: splitChars sep cs
      else
        match splitChars sep cs with
        | [] => [[c]]
        | g :: gs => (c :: g) :: gs

/-- Python `p.split("=", 1)`: split at the first `=` only.  `none` models a
part containing no `=` at all, in which case `dict(...)` over the resulting
1-element list raises `ValueError`. -/
def splitEq1 : List Char → Option (List Char × List Char)
  | [] => none
  | c :: cs =>
      if c = '=' then some ([], cs)
      else
        match splitEq1 cs with
        | none => none
        | some (k, v) => some (c :: k, v)

/-- `dict(p.split("=", 1) for p in signature.split(","))` (webhooks.py line
220): `none` models the `ValueError` raised when some comma-separated part
has no `=`. -/
def parsePairs : List (List Char) → Option (List (String × String))
  | [] => some []
  | part :: rest =>
      match splitEq1 part, parsePairs rest with
      | some (k, v), some ps => some ((String.mk k, String.mk v) :: ps)
      | _, _ => none

/-- The parsed `key=value` pairs of the signature header. -/
def parseSigPairs (signature : String) : Option (List (String × String)) :=
  parsePairs (splitChars ',' signature.toList)

/-- Lookup in the Python `dict` built from `pairs`: later bindings of a key
overwrite earlier ones, so the last binding wins.  `none` models the
`KeyError` raised by `parts[k]`. -/
def dictLookup (pairs : List (String × String)) (k : String) : Option String :=
  (pairs.reverse.find? (fun kv => kv.1 == k)).map (fun kv => kv.2)

/-- ASCII whitespace accepted (and stripped) by Python `int(str)`. -/
def isPySpace (c : Char) : Bool :=
  c = ' ' ∨ c = '\t' ∨ c = '\n' ∨ c = '\r'

mutual

/-- Python decimal integer literal body: a digit followed by digits with
single underscores allowed strictly between digits. -/
def pyIntDigits : List Char → Bool
  | [] => false
  | c :: cs => c.isDigit && pyIntTail cs

/-- Continuation of `pyIntDigits` after at least one digit. -/
def pyIntTail : List Char → Bool
  | [] => true
  | '_' :: cs => pyIntDigits cs
  | c :: cs => c.isDigit && pyIntTail cs

end

/-- Numeric value of a digit string (underscore separators ignored). -/
def digitsVal (cs : List Char) : Nat :=
  (cs.filter (fun c => c ≠ '_')).foldl (fun a c => a * 10 + (c.toNat - 48)) 0

/-- Python `int(s)` on a string: strip surrounding whitespace, allow one
optional sign, then decimal digits (with underscore grouping).  `none`
models the `ValueError` raised on any other input.  (Only ASCII whitespace
and digits are modelled.) -/
def pyInt (s : String) : Option Int :=
  let t := ((s.toList.dropWhile isPySpace).reverse.dropWhile isPySpace).reverse
  match t with
  | '-' :: rest => if pyIntDigits rest then some (-(digitsVal rest : Int)) else none
  | '+' :: rest => if pyIntDigits rest then some ((digitsVal rest : Int)) else none
  | rest => if pyIntDigits rest then some ((digitsVal rest : Int)) else none

/-- Python exceptions that the `try` block of `verify_signature` can raise. -/
inductive PyExn where
  | valueError
  | keyError
  deriving Repr, DecidableEq

/-- The body of the `try:` block of `WebhooksResource.verify_signature`
(`resources/webhooks.py` lines 218-236), with each Python exception made
explicit, in source order: parse the header into a dict (`ValueError` on a
part without `=`), read `parts["t"]` (`KeyError`), convert it with `int`
(`ValueError`), read `parts["v1"]` (`KeyError`), reject stale timestamps,
then compare the provided signature with the expected HMAC.  The ambient
clock `now` (`time.time()`) and the HMAC-SHA256 hex digest function
`hmacSha256Hex` (key, message) are passed in explicitly; `compare_digest`
on two strings decides exactly their equality (its constant-time execution
is a timing property outside this model). -/
def verify_signature_try (hmacSha256Hex : String → String → String) (now : Int)
    (payload signature secret : String) (tolerance : Int) : Except PyExn Bool :=
  match parseSigPairs signature with
  | none => .error .valueError
  | some pairs =>
      match dictLookup pairs "t" with
      | none => .error .keyError
      | some tStr =>
          match pyInt tStr with
          | none => .error .valueError
          | some timestamp =>
              match dictLookup pairs "v1" with
              | none => .error .keyError
              | some providedSig =>
                  if tolerance < abs (now - timestamp) then .ok false
                  else
                    .ok (providedSig ==
                      hmacSha256Hex secret (toString timestamp ++ "." ++ payload))

/-- `WebhooksResource.verify_signature`: the `try/except Exception` wrapper
turns any exception raised by the body into the return value `False`. -/
def verify_signature (hmacSha256Hex : String → String → String) (now : Int)
    (payload signature secret : String) (tolerance : Int) : Bool :=
  match verify_signature_try hmacSha256Hex now payload signature secret tolerance with
  | .ok b => b
  | .error _ => false

/-! ## HTTP transport (`constitutional/utils/request.py`) -/

/-- The shape of the `error` field of a parsed non-2xx response body, as
consumed by `error_body.get("error", {}).get(...)` (request.py lines
125-126 and 153). -/
inductive ErrField where
  /-- the parsed body is a dict without an `error` key: both `get` calls
  fall back to their defaults -/
  | absent
  /-- the `error` key maps to a dict with optional `message`, `code` and
  `details` entries (the `details` payload is abstracted to a string) -/
  | fields (message code details : Option String)
  /-- the `error` key maps to a non-dict value, so `.get` on it raises
  `AttributeError` -/
  | nonDict
  deriving Repr, DecidableEq

/-- Outcome of `response.json()` on a response body. -/
inductive Body where
  /-- `response.json()` raises; the `except` at line 122 substitutes `{}` -/
  | unparseable
  /-- the body is valid JSON but not an object, so `error_body.get` raises
  `AttributeError` -/
  | jsonNonDict
  /-- the body is a JSON object, with the given `error` field shape -/
  | jsonDict (err : ErrField)
  deriving Repr, DecidableEq

/-- An HTTP response as observed by `_request`: its status code, the raw
`retry-after` header if any, the body, the JSON document the body parses to
on the success path (abstracted to a string), and the `x-request-id`
header. -/
structure Response where
  status : Nat
  retryAfter : Option String
  body : Body
  payload : String
  requestId : Option String
  deriving Repr, DecidableEq

/-- Outcome of one `self._client.request(...)` call: a response, an
`httpx.TimeoutException`, or another `httpx.HTTPError` (connection error). -/
inductive Attempt where
  | resp (r : Response)
  | timeout
  | connError (msg : String)
  deriving Repr, DecidableEq

/-- `error_body.get("error", {}).get("message", "Request failed")` (line
125).  `none` models the `AttributeError` raised when the parsed body, or
its `error` field, is not a dict. -/
def errorMessage : Body → Option String
  | .unparseable => some "Request failed"
  | .jsonNonDict => none
  | .jsonDict .absent => some "Request failed"
  | .jsonDict (.fields m _ _) => some (m.getD "Request failed")
  | .jsonDict .nonDict => none

/-- `error_body.get("error", {}).get("code", "ERROR")` (line 126), with the
same `AttributeError` cases as `errorMessage`. -/
def errorCode : Body → Option String
  | .unparseable => some "ERROR"
  | .jsonNonDict => none
  | .jsonDict .absent => some "ERROR"
  | .jsonDict (.fields _ c _) => some (c.getD "ERROR")
  | .jsonDict .nonDict => none

/-- `error_body.get("error", {}).get("details")` (line 153): the outer
`some` is absence of `AttributeError`, the inner option is the Python value
(`None` when missing). -/
def errorDetails : Body → Option (Option String)
  | .unparseable => some none
  | .jsonNonDict => none
  | .jsonDict .absent => some none
  | .jsonDict (.fields _ _ d) => some d
  | .jsonDict .nonDict => none

/-- The typed errors of `constitutional/types/common.py` that `_request`
can surface, each with the constructor arguments that `_request` fills in. -/
inductive ReqError where
  | rateLimit (message : String) (retryAfter : Int) (requestId : Option String)
  | authentication (message : String) (requestId : Option String)
  | notFound (path : String) (requestId : Option String)
  | constitutional (message code : String) (statusCode : Nat)
      (details : Option String) (requestId : Option String)
  deriving Repr, DecidableEq

/-- How one logical `_request` call ends: a returned value (`none` models
the empty dict returned for 204, `some d` the parsed JSON document `d`), a
raised SDK error, or an uncaught non-SDK Python exception escaping the
function (named by its Python class). -/
inductive Outcome where
  | success (data : Option String)
  | failure (e : ReqError)
  | pyError (kind : String)
  deriving Repr, DecidableEq

/-- Observable behaviour of one `_request` call: its outcome, the arguments
of the successive `time.sleep` calls (in seconds), and the number of
`self._client.request` calls (physical attempts) performed. -/
structure ReqResult where
  outcome : Outcome
  sleeps : List Int
  attempts : Nat
  deriving Repr, DecidableEq

/-- The `ConstitutionalError` raised after exhausting retries on
`httpx.TimeoutException` (lines 167-172). -/
def timeoutError : ReqError :=
  .constitutional "Request timed out" "TIMEOUT" 408 none none

/-- The `ConstitutionalError` raised after exhausting retries on another
`httpx.HTTPError` with text `msg` (lines 179-184). -/
def httpError (msg : String) : ReqError :=
  .constitutional msg "HTTP_ERROR" 500 none none

/-- One iteration of the `while retries <= self.max_retries` loop body of
`HttpClient._request` (`utils/request.py` lines 102-189), processing the
attempt outcome `a` obtained at attempt counter `retries`.  `cont`, when
`some`, is the result of running the rest of the loop after a
`retries += 1; continue`, and is passed by `requestLoop` exactly when the
Python retry guard `retries < self.max_retries` holds; on the last allowed
attempt `cont = none` and the retrying branches surface their error
instead.  Processing follows the source order: 204, `is_success` (2xx,
where an unparseable success body makes `return response.json()` raise),
error-body parsing (lines 120-126, where a non-dict body or a non-dict
`error` field raises an uncaught `AttributeError`), then the
429 / 401 / 404 / generic dispatch.  A 429 parses `retry-after` with `int`
(the `"60"` default applies only when the header is absent, and a
non-integer header raises an uncaught `ValueError`), then sleeps the parsed
number of seconds and retries, or surfaces `RateLimitError` when the
budget is spent; 401, 404 and the generic `ConstitutionalError` are raised
and never retried (only `AuthenticationError` and `RateLimitError` have
`except` clauses; the others match no handler and propagate); timeouts and
connection errors sleep `2 ** retries` and retry, or surface once the
budget is spent. -/
def processAttempt (a : Attempt) (retries : Nat) (path : String)
    (cont : Option ReqResult) : ReqResult :=
  match a with
  | .timeout =>
      match cont with
      | some r => ⟨r.outcome, ((2 ^ retries : Nat) : Int) :: r.sleeps, r.attempts + 1⟩
      | none => ⟨.failure timeoutError, [], 1⟩
  | .connError msg =>
      match cont with
      | some r => ⟨r.outcome, ((2 ^ retries : Nat) : Int) :: r.sleeps, r.attempts + 1⟩
      | none => ⟨.failure (httpError msg), [], 1⟩
  | .resp r =>
      if r.status = 204 then ⟨.success none, [], 1⟩
      else if 200 ≤ r.status ∧ r.status ≤ 299 then
        match r.body with
        | .unparseable => ⟨.pyError "JSONDecodeError", [], 1⟩
        | _ => ⟨.success (some r.payload), [], 1⟩
      else
        match errorMessage r.body, errorCode r.body with
        | some msg, some code =>
            if r.status = 429 then
              match pyInt (r.retryAfter.getD "60") with
              | none => ⟨.pyError "ValueError", [], 1⟩
              | some ra =>
                  match cont with
                  | some rest => ⟨rest.outcome, ra :: rest.sleeps, rest.attempts + 1⟩
                  | none => ⟨.failure (.rateLimit msg ra r.requestId), [], 1⟩
            else if r.status = 401 then
              ⟨.failure (.authentication msg r.requestId), [], 1⟩
            else if r.status = 404 then
              ⟨.failure (.notFound path r.requestId), [], 1⟩
            else
              match errorDetails r.body with
              | some d =>
                  ⟨.failure (.constitutional msg code r.status d r.requestId), [], 1⟩
              | none => ⟨.pyError "AttributeError", [], 1⟩
        | _, _ => ⟨.pyError "AttributeError", [], 1⟩

/-- The retry loop of `HttpClient._request`, with the outcome of the k-th
physical attempt given by `script k`.  The Python retry guard
`retries < self.max_retries` is represented by `0 < fuel` under the
invariant `fuel = max_retries - retries`: `_request` starts the loop at
`retries = 0`, `fuel = max_retries`, and every retrying branch increments
`retries` while decrementing `fuel`, so the two guards agree throughout
(the `while` condition `retries <= max_retries` itself is always true when
control reaches the top of the loop, so the defensive `RETRY_EXHAUSTED`
fallback after the loop at line 193 is unreachable). -/
def requestLoop (script : Nat → Attempt) (path : String) :
    Nat → Nat → ReqResult
  | retries, 0 => processAttempt (script retries) retries path none
  | retries, fuel + 1 =>
      processAttempt (script retries) retries path
        (some (requestLoop script path (retries + 1) fuel))

/-- `HttpClient._request` for one logical call with retry budget
`maxRetries` (`self.max_retries`), attempt outcomes given by `script`, and
request path `path` (used in the `NotFoundError`). -/
def _request (maxRetries : Nat) (script : Nat → Attempt) (path : String) : ReqResult :=
  requestLoop script path 0 maxRetries

/-- Whether an attempt outcome is a network-level failure (timeout or
connection error), i.e. lands in one of the two `except httpx...` clauses. -/
def isNetFailure : Attempt → Bool
  | .timeout => true
  | .connError _ => true
  | .resp _ => false

/-- The error surfaced when the retry budget is exhausted on the given
network-level failure. -/
def exhaustedOutcome : Attempt → Outcome
  | .timeout => .failure timeoutError
  | .connError msg => .failure (httpError msg)
  | .resp _ => .success none

/-! ## Concrete inputs used to exercise the theorems -/

/-- The page `P1{data:[a,b], hasMore:true, cursor:"c1"}`. -/
def pageP1 : Page String := ⟨["a", "b"], ⟨some "c1", true⟩⟩

/-- The page `P2{data:[c], hasMore:true, cursor:"c2"}`. -/
def pageP2 : Page String := ⟨["c"], ⟨some "c2", true⟩⟩

/-- The page `P3{data:[], hasMore:false}`. -/
def pageP3 : Page String := ⟨[], ⟨none, false⟩⟩

/-- A 429 response carrying `retry-after: 2` and a well-formed error
envelope. -/
def resp429 : Response :=
  ⟨429, some "2", .jsonDict (.fields (some "slow down") none none), "", none⟩

/-- A 200 response with a parseable body. -/
def resp200 : Response := ⟨200, none, .jsonDict .absent, "bills", none⟩

/-- A 401 response with a well-formed error envelope. -/
def resp401 : Response :=
  ⟨401, none, .jsonDict (.fields (some "bad key") none none), "", some "req-1"⟩

/-- A 401 response whose body is valid JSON but not an object. -/
def resp401NonDict : Response := ⟨401, none, .jsonNonDict, "", none⟩

/-- A 429 response whose `retry-after` header is present but not an
integer. -/
def resp429BadRetryAfter : Response := ⟨429, some "soon", .jsonDict .absent, "", none⟩

/-- A 429 response with no `retry-after` header. -/
def resp429NoHeader : Response :=
  ⟨429, none, .jsonDict (.fields (some "limited") none none), "", none⟩

/-- A 500 response whose body is valid JSON but not an object. -/
def resp500NonDict : Response := ⟨500, none, .jsonNonDict, "", none⟩

/-- A 500 response with a full error envelope. -/
def resp500Envelope : Response :=
  ⟨500, none, .jsonDict (.fields (some "boom") (some "SERVER_ERROR") (some "ctx")),
   "", some "req-2"⟩

/-! ## Helper lemmas -/

theorem boundReached_false (m n : Nat) (h : n < m ∨ m = 0) :
    boundReached (some m) n = false := by
  match m with
  | 0 => rfl
  | m + 1 => simp [boundReached]; omega

theorem boundReached_true (m n : Nat) (h0 : 0 < m) (h : m ≤ n) :
    boundReached (some m) n = true := by
  match m with
  | 0 => omega
  | m + 1 => simp [boundReached]; omega

theorem consumePage_none (acc xs : List α) :
    consumePage none acc xs = (acc ++ xs, false) := by
  induction xs generalizing acc with
  | nil => simp [consumePage]
  | cons x xs ih => simp [consumePage, boundReached, ih]

theorem consumePage_zero (acc xs : List α) :
    consumePage (some 0) acc xs = (acc ++ xs, false) := by
  induction xs generalizing acc with
  | nil => simp [consumePage]
  | cons x xs ih => simp [consumePage, boundReached, ih]

theorem consumePage_no_hit (m : Nat) (acc xs : List α)
    (h : acc.length + xs.length < m) :
    consumePage (some m) acc xs = (acc ++ xs, false) := by
  induction xs generalizing acc with
  | nil => simp [consumePage]
  | cons x xs ih =>
      have hb : boundReached (some m) (acc.length + 1) = false := by
        apply boundReached_false
        simp at h
        omega
      have hrec := ih (acc ++ [x]) (by simp at h ⊢; omega)
      simp [consumePage, hb, hrec]

theorem consumePage_hit (m : Nat) (acc xs : List α)
    (h0 : acc.length < m) (h : m ≤ acc.length + xs.length) :
    consumePage (some m) acc xs = (acc ++ xs.take (m - acc.length), true) := by
  induction xs generalizing acc with
  | nil => simp at h; omega
  | cons x xs ih =>
      by_cases hb : m ≤ acc.length + 1
      · have hm : m = acc.length + 1 := by omega
        have hbr : boundReached (some m) (acc.length + 1) = true :=
          boundReached_true _ _ (by omega) (by omega)
        have htake : (x :: xs).take (m - acc.length) = [x] := by
          rw [hm]
          simp
        simp [consumePage, hbr, htake]
      · have hbr : boundReached (some m) (acc.length + 1) = false := by
          apply boundReached_false
          omega
        have hrec : consumePage (some m) (acc ++ [x]) xs =
            (acc ++ [x] ++ xs.take (m - (acc.length + 1)), true) := by
          rw [ih (acc ++ [x]) (by simp; omega) (by simp at h ⊢; omega)]
          simp
        have htake : (x :: xs).take (m - acc.length) =
            x :: xs.take (m - (acc.length + 1)) := by
          have hidx : m - acc.length = (m - (acc.length + 1)) + 1 := by omega
          rw [hidx, List.take_succ_cons]
        simp [consumePage, hbr, hrec, htake]

theorem paginateItems_eq_flatten (ps : List (Page α)) (q : Page α)
    (hps : ∀ p ∈ ps, p.pagination.has_more = true)
    (hq : q.pagination.has_more = false) :
    paginateItems (ps ++ [q]) = ((ps ++ [q]).map Page.data).flatten := by
  induction ps with
  | nil => simp [paginateItems, hq]
  | cons p ps ih =>
      have hp : p.pagination.has_more = true := hps p (by simp)
      have ihx := ih (fun x hx => hps x (by simp [hx]))
      simp [paginateItems, hp, ihx]

theorem paginateCursors_eq (q : Page α) (hq : q.pagination.has_more = false)
    (ps : List (Page α)) (c : Option String)
    (hps : ∀ p ∈ ps, p.pagination.has_more = true) :
    paginateCursors c (ps ++ [q]) = c :: ps.map (fun p => p.pagination.cursor) := by
  induction ps generalizing c with
  | nil => simp [paginateCursors, hq]
  | cons p ps ih =>
      have hp : p.pagination.has_more = true := hps p (by simp)
      have ihx := ih p.pagination.cursor (fun x hx => hps x (by simp [hx]))
      simp [paginateCursors, hp, ihx]

theorem collectLoop_take (m : Nat) (pages : List (Page α)) (acc : List α)
    (hacc : acc.length < m) :
    (collectLoop (some m) acc pages).1 =
      acc ++ (paginateItems pages).take (m - acc.length) := by
  induction pages generalizing acc with
  | nil => simp [collectLoop, paginateItems]
  | cons p ps ih =>
      by_cases hhit : m ≤ acc.length + p.data.length
      · have hc := consumePage_hit m acc p.data hacc hhit
        have htake : (paginateItems (p :: ps)).take (m - acc.length) =
            p.data.take (m - acc.length) := by
          have hz : m - acc.length ≤ p.data.length := by omega
          simp only [paginateItems]
          rw [List.take_append_eq_append_take]
          have : m - acc.length - p.data.length = 0 := by omega
          rw [this]
          simp
        simp [collectLoop, hc, htake]
      · have hc := consumePage_no_hit m acc p.data (by omega)
        by_cases hm : p.pagination.has_more = true
        · have ihx := ih (acc ++ p.data) (by simp; omega)
          have hidx : m - acc.length - p.data.length = m - (acc ++ p.data).length := by
            simp
            omega
          have hle : p.data.length ≤ m - acc.length := by omega
          have hsplit : (paginateItems (p :: ps)).take (m - acc.length) =
              p.data ++ (paginateItems ps).take (m - (acc ++ p.data).length) := by
            simp only [paginateItems, hm, if_true]
            rw [List.take_append_eq_append_take, List.take_of_length_le hle, hidx]
          simp [collectLoop, hc, hm, ihx, hsplit]
        · have hm2 : p.pagination.has_more = false := by
            revert hm
            cases p.pagination.has_more <;> simp
          have hle2 : p.data.length ≤ m - acc.length := by omega
          have htake : (paginateItems (p :: ps)).take (m - acc.length) = p.data := by
            simp only [paginateItems, hm2, if_false]
            simp
            exact hle2
          simp [collectLoop, hc, hm2, htake]

theorem collectLoop_count (m : Nat) (pages : List (Page α)) (k : Nat) (acc : List α)
    (hacc : acc.length < m)
    (hk : m ≤ acc.length + (((pages.take k).map Page.data).flatten).length) :
    (collectLoop (some m) acc pages).2 ≤ k := by
  induction pages generalizing acc k with
  | nil => simp [collectLoop]
  | cons p ps ih =>
      match k with
      | 0 => simp at hk; omega
      | k2 + 1 =>
          by_cases hhit : m ≤ acc.length + p.data.length
          · have hc := consumePage_hit m acc p.data hacc hhit
            simp [collectLoop, hc]
          · have hc := consumePage_no_hit m acc p.data (by omega)
            by_cases hm : p.pagination.has_more = true
            · have hk2 : m ≤ (acc ++ p.data).length +
                  (((ps.take k2).map Page.data).flatten).length := by
                simp only [List.take_succ_cons, List.map_cons, List.flatten_cons,
                  List.length_append] at hk ⊢
                omega
              have ihx := ih k2 (acc ++ p.data) (by simp; omega) hk2
              simp [collectLoop, hc, hm]
              omega
            · have hm2 : p.pagination.has_more = false := by
                revert hm
                cases p.pagination.has_more <;> simp
              simp [collectLoop, hc, hm2]

theorem collectLoop_some_zero (pages : List (Page α)) (acc : List α) :
    collectLoop (some 0) acc pages = collectLoop none acc pages := by
  induction pages generalizing acc with
  | nil => simp [collectLoop]
  | cons p ps ih =>
      simp [collectLoop, consumePage_zero, consumePage_none, ih]

theorem collectLoop_none_fst (pages : List (Page α)) (acc : List α) :
    (collectLoop none acc pages).1 = acc ++ paginateItems pages := by
  induction pages generalizing acc with
  | nil => simp [collectLoop, paginateItems]
  | cons p ps ih =>
      by_cases hm : p.pagination.has_more = true
      · simp [collectLoop, consumePage_none, paginateItems, hm, ih]
      · have hm2 : p.pagination.has_more = false := by
          revert hm
          cases p.pagination.has_more <;> simp
        simp [collectLoop, consumePage_none, paginateItems, hm2]

/-! ## Helper lemmas: transport -/

theorem errorCode_of_message (b : Body) (msg : String)
    (h : errorMessage b = some msg) : ∃ c, errorCode b = some c := by
  cases b with
  | unparseable => exact ⟨"ERROR", rfl⟩
  | jsonNonDict => simp [errorMessage] at h
  | jsonDict e =>
      cases e with
      | absent => exact ⟨"ERROR", rfl⟩
      | fields m c d => exact ⟨c.getD "ERROR", rfl⟩
      | nonDict => simp [errorMessage] at h

theorem range_pow_cons (r fuel : Nat) :
    ((2 ^ r : Nat) : Int) ::
        (List.range fuel).map (fun j => ((2 ^ (r + 1 + j) : Nat) : Int)) =
      (List.range (fuel + 1)).map (fun j => ((2 ^ (r + j) : Nat) : Int)) := by
  rw [List.range_succ_eq_map, List.map_cons, List.map_map]
  refine congrArg₂ _ (by simp) ?_
  refine List.map_congr_left ?_
  intro a _
  have h : r + 1 + a = r + (a + 1) := by omega
  simp [Function.comp, h]

theorem requestLoop_step_timeout (script : Nat → Attempt) (path : String)
    (retries fuel : Nat) (hs : script retries = .timeout) :
    requestLoop script path retries (fuel + 1) =
      ⟨(requestLoop script path (retries + 1) fuel).outcome,
       ((2 ^ retries : Nat) : Int) :: (requestLoop script path (retries + 1) fuel).sleeps,
       (requestLoop script path (retries + 1) fuel).attempts + 1⟩ := by
  simp [requestLoop, processAttempt, hs]

theorem requestLoop_stop_timeout (script : Nat → Attempt) (path : String)
    (retries : Nat) (hs : script retries = .timeout) :
    requestLoop script path retries 0 = ⟨.failure timeoutError, [], 1⟩ := by
  simp [requestLoop, processAttempt, hs]

theorem requestLoop_step_conn (script : Nat → Attempt) (path : String)
    (retries fuel : Nat) (msg : String) (hs : script retries = .connError msg) :
    requestLoop script path retries (fuel + 1) =
      ⟨(requestLoop script path (retries + 1) fuel).outcome,
       ((2 ^ retries : Nat) : Int) :: (requestLoop script path (retries + 1) fuel).sleeps,
       (requestLoop script path (retries + 1) fuel).attempts + 1⟩ := by
  simp [requestLoop, processAttempt, hs]

theorem requestLoop_stop_conn (script : Nat → Attempt) (path : String)
    (retries : Nat) (msg : String) (hs : script retries = .connError msg) :
    requestLoop script path retries 0 = ⟨.failure (httpError msg), [], 1⟩ := by
  simp [requestLoop, processAttempt, hs]

theorem requestLoop_netFailures (script : Nat → Attempt) (path : String)
    (fuel retries : Nat)
    (h : ∀ i, retries ≤ i → i < retries + fuel → isNetFailure (script i) = true) :
    requestLoop script path retries fuel =
      ⟨(requestLoop script path (retries + fuel) 0).outcome,
       (List.range fuel).map (fun j => ((2 ^ (retries + j) : Nat) : Int))
         ++ (requestLoop script path (retries + fuel) 0).sleeps,
       fuel + (requestLoop script path (retries + fuel) 0).attempts⟩ := by
  induction fuel generalizing retries with
  | zero => simp
  | succ fuel ih =>
      have hf : isNetFailure (script retries) = true := h retries le_rfl (by omega)
      have harg : retries + 1 + fuel = retries + (fuel + 1) := by omega
      have ihx := ih (retries + 1) (fun i h1 h2 => h i (by omega) (by omega))
      rw [harg] at ihx
      cases hs : script retries with
      | resp r =>
          rw [hs] at hf
          simp [isNetFailure] at hf
      | timeout =>
          rw [requestLoop_step_timeout script path retries fuel hs, ihx,
            ← range_pow_cons, List.cons_append]
          simp [ReqResult.mk.injEq]
          omega
      | connError msg =>
          rw [requestLoop_step_conn script path retries fuel msg hs, ihx,
            ← range_pow_cons, List.cons_append]
          simp [ReqResult.mk.injEq]
          omega

theorem processAttempt_no_retry (r : Response) (retries : Nat) (path : String)
    (cont : Option ReqResult) (h429 : r.status ≠ 429) :
    processAttempt (.resp r) retries path cont =
      processAttempt (.resp r) retries path none := by
  by_cases h204 : r.status = 204
  · simp [processAttempt, h204]
  · by_cases h2xx : 200 ≤ r.status ∧ r.status ≤ 299
    · simp [processAttempt, h204, h2xx]
    · cases hm : errorMessage r.body with
      | none => simp [processAttempt, h204, h2xx, hm]
      | some msg =>
          cases hc : errorCode r.body with
          | none => simp [processAttempt, h204, h2xx, hm, hc]
          | some code => simp [processAttempt, h204, h2xx, hm, hc, h429]

theorem requestLoop_first_no_retry (script : Nat → Attempt) (path : String)
    (r : Response) (fuel : Nat) (h0 : script 0 = .resp r)
    (h429 : r.status ≠ 429) :
    requestLoop script path 0 fuel = processAttempt (.resp r) 0 path none := by
  cases fuel with
  | zero =>
      simp only [requestLoop]
      rw [h0]
  | succ f =>
      simp only [requestLoop]
      rw [h0]
      exact processAttempt_no_retry r 0 path _ h429

theorem processAttempt_none_once (a : Attempt) (retries : Nat) (path : String) :
    (processAttempt a retries path none).attempts = 1
    ∧ (processAttempt a retries path none).sleeps = [] := by
  cases a with
  | timeout => simp [processAttempt]
  | connError m => simp [processAttempt]
  | resp r =>
      by_cases h204 : r.status = 204
      · simp [processAttempt, h204]
      · by_cases h2xx : 200 ≤ r.status ∧ r.status ≤ 299
        · cases hb : r.body <;> simp [processAttempt, h204, h2xx, hb]
        · cases hm : errorMessage r.body with
          | none => simp [processAttempt, h204, h2xx, hm]
          | some msg =>
              cases hc : errorCode r.body with
              | none => simp [processAttempt, h204, h2xx, hm, hc]
              | some code =>
                  by_cases h429 : r.status = 429
                  · cases hpi : pyInt ((r.retryAfter).getD "60") <;>
                      simp [processAttempt, h204, h2xx, hm, hc, h429, hpi]
                  · by_cases h401 : r.status = 401
                    · simp [processAttempt, h204, h2xx, hm, hc, h429, h401]
                    · by_cases h404 : r.status = 404
                      · simp [processAttempt, h204, h2xx, hm, hc, h429, h401, h404]
                      · cases hd : errorDetails r.body <;>
                          simp [processAttempt, h204, h2xx, hm, hc, h429, h401,
                            h404, hd]

/-! ## Claim theorems: pagination -/

/-- C6: for every finite page sequence whose pages all report
`has_more = true` except a final page with `has_more = false`, `paginate`
yields exactly the concatenation of the pages' `data` lists in page order,
and calls the fetcher exactly once per page, with cursor arguments `none`
(absent) followed by each page's returned cursor, in order.  The number of
fetch calls is the length of the cursor list, i.e. the number of pages. -/
theorem c6_paginate_concatenation (ps : List (Page α)) (q : Page α)
    (hps : ∀ p ∈ ps, p.pagination.has_more = true)
    (hq : q.pagination.has_more = false) :
    paginateItems (ps ++ [q]) = ((ps ++ [q]).map Page.data).flatten
    ∧ paginateCursors none (ps ++ [q]) =
        none :: ps.map (fun p => p.pagination.cursor) :=
  ⟨paginateItems_eq_flatten ps q hps hq, paginateCursors_eq q hq ps none hps⟩

/-- C6 witness: over `P1{[a,b], true, "c1"}`, `P2{[c], true, "c2"}`,
`P3{[], false}`, `paginate` yields `[a,b,c]` with exactly 3 fetch calls at
cursors `[absent, "c1", "c2"]`. -/
theorem c6_witness :
    paginateItems [pageP1, pageP2, pageP3] = ["a", "b", "c"]
    ∧ paginateCursors none [pageP1, pageP2, pageP3] =
        [none, some "c1", some "c2"] := by
  have h := c6_paginate_concatenation [pageP1, pageP2] pageP3 (by decide) (by decide)
  exact ⟨h.1.trans (by decide), h.2.trans (by decide)⟩

/-- C7: for every positive bound `m`, over a page sequence ending in the
first `has_more = false` page, `collect_all` returns exactly the first `m`
items of the full paginated item sequence (all of it when fewer than `m`
exist), and whenever the first `k` pages already contain at least `m`
items, it makes at most `k` fetch calls — so it never fetches past the
page containing the last returned item. -/
theorem c7_collect_all_bounded (ps : List (Page α)) (q : Page α) (m : Nat)
    (hm : 0 < m)
    (hps : ∀ p ∈ ps, p.pagination.has_more = true)
    (hq : q.pagination.has_more = false) :
    (collect_all (some m) (ps ++ [q])).1 =
      (((ps ++ [q]).map Page.data).flatten).take m
    ∧ ∀ k, m ≤ (((((ps ++ [q]).take k)).map Page.data).flatten).length →
        (collect_all (some m) (ps ++ [q])).2 ≤ k := by
  constructor
  · have h1 := collectLoop_take m (ps ++ [q]) [] (by simpa using hm)
    rw [collect_all, h1, paginateItems_eq_flatten ps q hps hq]
    simp
  · intro k hk
    exact collectLoop_count m (ps ++ [q]) k [] (by simpa using hm) (by simpa using hk)

/-- C7 witness: `maxItems = 2` over `P1{[a,b]}, P2{[c]}, P3{[]}` returns
`[a, b]` with at most 2 fetch calls (the model makes exactly 1, since the
`break` fires before page 2 is ever requested). -/
theorem c7_witness :
    (collect_all (some 2) [pageP1, pageP2, pageP3]).1 = ["a", "b"]
    ∧ (collect_all (some 2) [pageP1, pageP2, pageP3]).2 ≤ 2 := by
  have h := c7_collect_all_bounded [pageP1, pageP2] pageP3 2 (by decide)
    (by decide) (by decide)
  exact ⟨h.1.trans (by decide), h.2 2 (by decide)⟩

/-- C10: `max_items = 0` is falsy under Python's truthiness test at
`if max_items and len(items) >= max_items`, so `collect_all` with
`max_items = 0` behaves exactly like `max_items = None` on every page
sequence, returning the entire paginated item sequence rather than zero
items. -/
theorem c10_zero_bound_unbounded (pages : List (Page α)) :
    collect_all (some 0) pages = collect_all none pages
    ∧ (collect_all none pages).1 = paginateItems pages := by
  refine ⟨collectLoop_some_zero pages [], ?_⟩
  simpa using collectLoop_none_fst pages []

/-! ## Claim theorems: webhook signature verification -/

/-- C8: for a header that parses as `key=value` pairs with a `t` entry that
`int` accepts as timestamp `T` and a `v1` entry `s` (the well-formed
`t=T,v1=S` shape), `verify_signature` returns `true` if and only if
`|now - T| ≤ tolerance` (freshness, symmetric in both directions of skew)
and `s` equals the HMAC-SHA256 hex digest of `"<T>.<payload>"` keyed by
`secret`.  In particular a correct in-tolerance signature verifies, any `s`
differing from the digest (e.g. one mutated hex character) yields `false`,
and a timestamp older than `now` by more than the tolerance yields
`false`. -/
theorem c8_verify_signature_iff (hmacSha256Hex : String → String → String)
    (now T tol : Int) (payload secret sig tStr s : String)
    (pairs : List (String × String))
    (hp : parseSigPairs sig = some pairs)
    (ht : dictLookup pairs "t" = some tStr)
    (hT : pyInt tStr = some T)
    (hv : dictLookup pairs "v1" = some s) :
    verify_signature hmacSha256Hex now payload sig secret tol = true ↔
      (abs (now - T) ≤ tol
        ∧ s = hmacSha256Hex secret (toString T ++ "." ++ payload)) := by
  by_cases hfresh : tol < abs (now - T)
  · simp [verify_signature, verify_signature_try, hp, ht, hT, hv, hfresh]
  · have hle := not_lt.mp hfresh
    simp [verify_signature, verify_signature_try, hp, ht, hT, hv, hfresh, hle]

/-- C8 witness: with an HMAC oracle that returns `"aa"`, the header
`t=100,v1=aa` verifies at `now = 100` under tolerance 300. -/
theorem c8_witness :
    verify_signature (fun _ _ => "aa") 100 "hello" "t=100,v1=aa" "s3cr3t" 300 = true := by
  have h := c8_verify_signature_iff (fun _ _ => "aa") 100 100 300 "hello" "s3cr3t"
    "t=100,v1=aa" "100" "aa" [("t", "100"), ("v1", "aa")]
    (by decide) (by decide) (by decide) (by decide)
  exact h.mpr ⟨by decide, by decide⟩

/-- C9: `verify_signature` is a total function; the `try/except` wrapper
turns every exception raised inside the body — `ValueError` from a
comma-separated part without `=` or a non-integer timestamp, `KeyError`
from a missing `t` or `v1` key — into the return value `false`, and is the
identity on the boolean the body returns when no exception is raised. -/
theorem c9_verify_signature_total (hmacSha256Hex : String → String → String)
    (now : Int) (payload sig secret : String) (tol : Int) :
    (∀ e, verify_signature_try hmacSha256Hex now payload sig secret tol = .error e →
        verify_signature hmacSha256Hex now payload sig secret tol = false)
    ∧ (∀ b, verify_signature_try hmacSha256Hex now payload sig secret tol = .ok b →
        verify_signature hmacSha256Hex now payload sig secret tol = b) := by
  constructor
  · intro e he
    simp [verify_signature, he]
  · intro b hb
    simp [verify_signature, hb]

/-- C9 witness: the malformed header `"garbage"` (no `=` in its single
part) raises `ValueError` inside the body, and `verify_signature` returns
`false` for it instead of signalling. -/
theorem c9_witness :
    verify_signature (fun _ _ => "aa") 0 "p" "garbage" "s" 300 = false :=
  (c9_verify_signature_total (fun _ _ => "aa") 0 "p" "garbage" "s" 300).1
    .valueError (by rfl)

/-! ## Claim theorems: HTTP transport -/

/-- C1: when every attempt up to the retry budget fails at network level
(timeout or connection error), `_request` makes exactly `maxRetries + 1`
attempts, sleeping `2 ^ attempt` seconds between consecutive attempts
(attempts numbered from 0), and then surfaces the error of the last
attempt; in particular with only timeouts it surfaces the Timeout error
(`ConstitutionalError` with code `TIMEOUT`), and when the first
`maxRetries` attempts fail at network level but attempt `maxRetries`
returns a 200 with a parseable body, it returns that success after the
same `maxRetries + 1` attempts and backoff sleeps. -/
theorem c1_retry_backoff (maxRetries : Nat) (script : Nat → Attempt) (path : String) :
    ((∀ i, i ≤ maxRetries → isNetFailure (script i) = true) →
      _request maxRetries script path =
        ⟨exhaustedOutcome (script maxRetries),
         (List.range maxRetries).map (fun a => ((2 ^ a : Nat) : Int)),
         maxRetries + 1⟩)
    ∧ ((∀ i, i ≤ maxRetries → script i = .timeout) →
      (_request maxRetries script path).outcome = .failure timeoutError)
    ∧ (∀ r : Response,
        (∀ i, i < maxRetries → isNetFailure (script i) = true) →
        script maxRetries = .resp r → r.status = 200 → r.body ≠ .unparseable →
        _request maxRetries script path =
          ⟨.success (some r.payload),
           (List.range maxRetries).map (fun a => ((2 ^ a : Nat) : Int)),
           maxRetries + 1⟩) := by
  have main : (∀ i, i ≤ maxRetries → isNetFailure (script i) = true) →
      _request maxRetries script path =
        ⟨exhaustedOutcome (script maxRetries),
         (List.range maxRetries).map (fun a => ((2 ^ a : Nat) : Int)),
         maxRetries + 1⟩ := by
    intro h
    have hL := requestLoop_netFailures script path maxRetries 0
      (fun i h1 h2 => h i (by omega))
    simp only [Nat.zero_add] at hL
    have hlast : requestLoop script path maxRetries 0 =
        ⟨exhaustedOutcome (script maxRetries), [], 1⟩ := by
      cases hs : script maxRetries with
      | resp r =>
          have hx := h maxRetries le_rfl
          rw [hs] at hx
          simp [isNetFailure] at hx
      | timeout =>
          rw [requestLoop_stop_timeout script path maxRetries hs]
          rfl
      | connError m =>
          rw [requestLoop_stop_conn script path maxRetries m hs]
          rfl
    simp only [_request]
    rw [hL, hlast]
    simp
  refine ⟨main, ?_, ?_⟩
  · intro h
    have h1 : ∀ i, i ≤ maxRetries → isNetFailure (script i) = true := by
      intro i hi
      rw [h i hi]
      rfl
    rw [main h1]
    show exhaustedOutcome (script maxRetries) = .failure timeoutError
    rw [h maxRetries le_rfl]
    rfl
  · intro r hfails hr h200 hbody
    have hL := requestLoop_netFailures script path maxRetries 0
      (fun i h1 h2 => hfails i (by omega))
    simp only [Nat.zero_add] at hL
    have hlast : requestLoop script path maxRetries 0 =
        ⟨.success (some r.payload), [], 1⟩ := by
      have hunf : requestLoop script path maxRetries 0 =
          processAttempt (script maxRetries) maxRetries path none := by
        simp only [requestLoop]
      rw [hunf, hr]
      cases hb : r.body with
      | unparseable => exact absurd hb hbody
      | jsonNonDict => simp [processAttempt, h200, hb]
      | jsonDict e => simp [processAttempt, h200, hb]
    simp only [_request]
    rw [hL, hlast]
    simp

/-- C1 witness: `maxRetries = 3` with four consecutive timeouts makes
exactly 4 attempts, sleeps `[1, 2, 4]`, and surfaces the Timeout error. -/
theorem c1_witness :
    _request 3 (fun _ => .timeout) "/v1/bills" =
      ⟨.failure timeoutError, [1, 2, 4], 4⟩ := by
  have h := (c1_retry_backoff 3 (fun _ => .timeout) "/v1/bills").1 (fun i _ => rfl)
  exact h.trans (by decide)

/-- C2 counterexample: a first-response 401 whose body is valid JSON but
not an object does not surface an Authentication error — the error-envelope
read `error_body.get(...)` at request.py line 125 runs before the status
dispatch and raises an uncaught `AttributeError` (still exactly one
attempt, no sleep). -/
theorem c2_counterexample :
    _request 3 (fun _ => .resp resp401NonDict) "/v1/bills" =
      ⟨.pyError "AttributeError", [], 1⟩ := by
  decide

/-- C2 (amended): when the first response has status 401 or 404,
`_request` performs exactly one attempt with no retry or sleep, for every
`maxRetries`; whenever the error-envelope extraction from the body does
not itself raise (the body is unparseable, or an object whose `error`
field is an object or absent), the surfaced error is
`AuthenticationError` (401) or `NotFoundError` (404); but when the body
parses to a non-object JSON value, or its `error` field is a non-object,
`_request` raises an uncaught `AttributeError` instead of surfacing a
typed error. -/
theorem c2_auth_notfound_short_circuit (maxRetries : Nat) (script : Nat → Attempt)
    (path : String) (r : Response)
    (h0 : script 0 = .resp r) (hst : r.status = 401 ∨ r.status = 404) :
    ((_request maxRetries script path).attempts = 1
      ∧ (_request maxRetries script path).sleeps = [])
    ∧ (∀ msg, errorMessage r.body = some msg →
        (_request maxRetries script path).outcome =
          (if r.status = 401 then Outcome.failure (.authentication msg r.requestId)
           else Outcome.failure (.notFound path r.requestId)))
    ∧ ((r.body = .jsonNonDict ∨ r.body = .jsonDict .nonDict) →
        (_request maxRetries script path).outcome = .pyError "AttributeError") := by
  have h429 : r.status ≠ 429 := by
    rcases hst with h | h <;> rw [h] <;> decide
  have hreq : _request maxRetries script path = processAttempt (.resp r) 0 path none :=
    requestLoop_first_no_retry script path r maxRetries h0 h429
  refine ⟨?_, ?_, ?_⟩
  · rw [hreq]
    exact processAttempt_none_once (.resp r) 0 path
  · intro msg hm
    obtain ⟨c, hc⟩ := errorCode_of_message r.body msg hm
    rw [hreq]
    rcases hst with h | h <;> simp [processAttempt, h, hm, hc]
  · intro hb
    rcases hst with h | h <;> rcases hb with hb | hb <;>
      (rw [hreq]
       simp [processAttempt, h, hb, errorMessage, errorCode])

/-- C2 witness: a first-attempt 401 under `maxRetries = 3` costs one
attempt, no sleep, and surfaces the authentication error. -/
theorem c2_witness :
    ((_request 3 (fun _ => .resp resp401) "/v1/bills").attempts = 1
      ∧ (_request 3 (fun _ => .resp resp401) "/v1/bills").sleeps = [])
    ∧ (_request 3 (fun _ => .resp resp401) "/v1/bills").outcome =
        .failure (.authentication "bad key" (some "req-1")) := by
  have h := c2_auth_notfound_short_circuit 3 (fun _ => .resp resp401) "/v1/bills"
    resp401 rfl (Or.inl rfl)
  exact ⟨h.1, (h.2.1 "bad key" rfl).trans (by decide)⟩

/-- C3: given a first response of 429 with `retry-after: 2` and a second
response of 200 with a parseable body, and `maxRetries ≥ 1`, `_request`
returns the 200 payload after exactly one intervening sleep of 2 seconds
(the server-supplied value, not the exponential-backoff value 1), in 2
attempts. -/
theorem c3_rate_limit_server_wait (maxRetries : Nat) (script : Nat → Attempt)
    (path : String) (r1 r2 : Response) (msg : String)
    (hmr : 1 ≤ maxRetries)
    (h0 : script 0 = .resp r1) (h1 : script 1 = .resp r2)
    (hs1 : r1.status = 429) (hra : r1.retryAfter = some "2")
    (hm1 : errorMessage r1.body = some msg)
    (hs2 : r2.status = 200) (hb2 : r2.body ≠ .unparseable) :
    _request maxRetries script path = ⟨.success (some r2.payload), [2], 2⟩ := by
  obtain ⟨f, rfl⟩ : ∃ f, maxRetries = f + 1 := ⟨maxRetries - 1, by omega⟩
  obtain ⟨c, hc⟩ := errorCode_of_message r1.body msg hm1
  have hstep2 : requestLoop script path 1 f = ⟨.success (some r2.payload), [], 1⟩ := by
    have hpa : ∀ cont, processAttempt (.resp r2) 1 path cont =
        ⟨.success (some r2.payload), [], 1⟩ := by
      intro cont
      cases hb : r2.body with
      | unparseable => exact absurd hb hb2
      | jsonNonDict => simp [processAttempt, hs2, hb]
      | jsonDict e => simp [processAttempt, hs2, hb]
    cases f with
    | zero =>
        simp only [requestLoop]
        rw [h1]
        exact hpa none
    | succ f2 =>
        simp only [requestLoop]
        rw [h1]
        exact hpa _
  have hra2 : pyInt ((r1.retryAfter).getD "60") = some 2 := by
    rw [hra]
    decide
  simp only [_request, requestLoop]
  rw [h0, hstep2]
  simp [processAttempt, hs1, hm1, hc, hra2]

/-- C3 witness: `[429(retry-after=2), 200]` under `maxRetries = 3` returns
the 200 payload with the single sleep `[2]` in 2 attempts. -/
theorem c3_witness :
    _request 3 (fun i => if i = 0 then .resp resp429 else .resp resp200) "/v1/bills" =
      ⟨.success (some "bills"), [2], 2⟩ := by
  exact c3_rate_limit_server_wait 3 (fun i => if i = 0 then .resp resp429 else .resp resp200)
    "/v1/bills" resp429 resp200 "slow down" (by omega) rfl rfl rfl rfl rfl rfl (by decide)

/-- C4 counterexample: a 429 response whose `retry-after` header is the
non-integer string `"soon"` does not yield a RateLimit error with the
60-second default — `int("soon")` raises an uncaught `ValueError`, an
untyped crash, on the first attempt. -/
theorem c4_counterexample :
    _request 3 (fun _ => .resp resp429BadRetryAfter) "/v1/bills" =
      ⟨.pyError "ValueError", [], 1⟩ := by
  decide

/-- C4 (amended): for every 429 response whose error envelope extraction
succeeds, the RateLimit error's `retry_after` comes from the `retry-after`
header when the header is present and `int` accepts it, and defaults to 60
only when the header is absent; a header that is present but not an
integer raises an uncaught `ValueError` for every `maxRetries`.  (The
exhausted-budget case `maxRetries = 0` is used to surface the constructed
error directly.) -/
theorem c4_retry_after_parsing (script : Nat → Attempt) (path : String)
    (r : Response) (msg : String)
    (h0 : script 0 = .resp r) (hs : r.status = 429)
    (hm : errorMessage r.body = some msg) :
    (r.retryAfter = none →
        _request 0 script path = ⟨.failure (.rateLimit msg 60 r.requestId), [], 1⟩)
    ∧ (∀ raw ra, r.retryAfter = some raw → pyInt raw = some ra →
        _request 0 script path = ⟨.failure (.rateLimit msg ra r.requestId), [], 1⟩)
    ∧ (∀ raw, r.retryAfter = some raw → pyInt raw = none →
        ∀ maxRetries, _request maxRetries script path = ⟨.pyError "ValueError", [], 1⟩) := by
  obtain ⟨c, hc⟩ := errorCode_of_message r.body msg hm
  refine ⟨?_, ?_, ?_⟩
  · intro hnone
    have h60 : pyInt ((r.retryAfter).getD "60") = some 60 := by
      rw [hnone]
      decide
    simp only [_request, requestLoop]
    rw [h0]
    simp [processAttempt, hs, hm, hc, h60]
  · intro raw ra hraw hpi
    have hx : pyInt ((r.retryAfter).getD "60") = some ra := by
      rw [hraw]
      simpa using hpi
    simp only [_request, requestLoop]
    rw [h0]
    simp [processAttempt, hs, hm, hc, hx]
  · intro raw hraw hpi maxRetries
    have hx : pyInt ((r.retryAfter).getD "60") = none := by
      rw [hraw]
      simpa using hpi
    cases maxRetries with
    | zero =>
        simp only [_request, requestLoop]
        rw [h0]
        simp [processAttempt, hs, hm, hc, hx]
    | succ f =>
        simp only [_request, requestLoop]
        rw [h0]
        simp [processAttempt, hs, hm, hc, hx]

/-- C4 witness: a 429 with no `retry-after` header and an exhausted budget
surfaces a RateLimit error with the 60-second default. -/
theorem c4_witness :
    _request 0 (fun _ => .resp resp429NoHeader) "/v1/bills" =
      ⟨.failure (.rateLimit "limited" 60 none), [], 1⟩ := by
  exact ((c4_retry_after_parsing (fun _ => .resp resp429NoHeader) "/v1/bills"
    resp429NoHeader "limited" rfl rfl rfl).1) rfl

/-- C5 counterexample: a 500 response whose body parses as non-object JSON
does not produce the default generic error — `error_body.get` raises an
uncaught `AttributeError`, an untyped crash, on the first attempt. -/
theorem c5_counterexample :
    _request 3 (fun _ => .resp resp500NonDict) "/v1/bills" =
      ⟨.pyError "AttributeError", [], 1⟩ := by
  decide

/-- C5 (amended): for every first response with a non-2xx status other
than 401, 404 and 429, `_request` never retries or sleeps (one attempt for
every `maxRetries`); the surfaced error is the generic
`ConstitutionalError` built from the envelope's message/code/details when
the body is an object whose `error` field is an object (or missing, or the
body is unparseable — then the defaults `"Request failed"`/`"ERROR"`
apply); but when the body parses to a non-object JSON value, or its
`error` field is a non-object, `_request` raises an uncaught
`AttributeError` instead of falling back to the defaults. -/
theorem c5_generic_error_propagation (maxRetries : Nat) (script : Nat → Attempt)
    (path : String) (r : Response)
    (h0 : script 0 = .resp r)
    (h2xx : ¬(200 ≤ r.status ∧ r.status ≤ 299))
    (h401 : r.status ≠ 401) (h404 : r.status ≠ 404) (h429 : r.status ≠ 429) :
    ((_request maxRetries script path).attempts = 1
      ∧ (_request maxRetries script path).sleeps = [])
    ∧ (∀ msg code d, errorMessage r.body = some msg → errorCode r.body = some code →
        errorDetails r.body = some d →
        (_request maxRetries script path).outcome =
          .failure (.constitutional msg code r.status d r.requestId))
    ∧ ((r.body = .unparseable ∨ r.body = .jsonDict .absent) →
        (_request maxRetries script path).outcome =
          .failure (.constitutional "Request failed" "ERROR" r.status none r.requestId))
    ∧ ((r.body = .jsonNonDict ∨ r.body = .jsonDict .nonDict) →
        (_request maxRetries script path).outcome = .pyError "AttributeError") := by
  have h204 : r.status ≠ 204 := by
    intro hh
    exact h2xx (by rw [hh]; exact ⟨by omega, by omega⟩)
  have hreq : _request maxRetries script path = processAttempt (.resp r) 0 path none :=
    requestLoop_first_no_retry script path r maxRetries h0 h429
  refine ⟨?_, ?_, ?_, ?_⟩
  · rw [hreq]
    exact processAttempt_none_once (.resp r) 0 path
  · intro msg code d hm hc hd
    rw [hreq]
    simp [processAttempt, h204, h2xx, h401, h404, h429, hm, hc, hd]
  · intro hb
    rcases hb with hb | hb <;>
      (rw [hreq]
       simp [processAttempt, h204, h2xx, h401, h404, h429, hb,
         errorMessage, errorCode, errorDetails])
  · intro hb
    rcases hb with hb | hb <;>
      (rw [hreq]
       simp [processAttempt, h204, h2xx, hb, errorMessage, errorCode])

/-- C5 witness: a 500 with a full `{error: {message, code, details}}`
envelope surfaces the generic error carrying those fields after exactly one
attempt and no sleep. -/
theorem c5_witness :
    ((_request 3 (fun _ => .resp resp500Envelope) "/v1/bills").attempts = 1
      ∧ (_request 3 (fun _ => .resp resp500Envelope) "/v1/bills").sleeps = [])
    ∧ (_request 3 (fun _ => .resp resp500Envelope) "/v1/bills").outcome =
        .failure (.constitutional "boom" "SERVER_ERROR" 500 (some "ctx") (some "req-2")) := by
  have h := c5_generic_error_propagation 3 (fun _ => .resp resp500Envelope) "/v1/bills"
    resp500Envelope rfl (by decide) (by decide) (by decide) (by decide)
  exact ⟨h.1, (h.2.1 "boom" "SERVER_ERROR" (some "ctx") rfl rfl rfl).trans (by decide)⟩

end ConstitutionalSDK
